import Mathlib

/-!
Shallow embedding of the spotify-mcp repository's specifiable core:
the token cache (`get_spotify_token` in `MCPServer/__init__.py` and the
uncached variant in `server.py`), the bearer-token request gate
(`BearerTokenMiddleware.dispatch` in `server.py`), module-level startup
configuration checks of all three variants, and the audio-feature
averaging helper of `get_artist_profile`.

Strings are modelled as `List Char`; Python string truthiness (None and
the empty string are falsy) is modelled explicitly.  Timestamps are
modelled as integers (`time.time()` compared and added with integral
expiry seconds).  Audio-feature float values are modelled as exact
rationals, abstracting IEEE-754 arithmetic.
-/

/-- Characters of a string literal, for readable concrete inputs. -/
def strL (s : String) : List Char := s.data

/-- Python's `str.startswith`: does `hay` begin with `needle`? -/
def hasPre : List Char → List Char → Bool
  | [], _ => true
  | _ :: _, [] => false
  | a :: as, b :: bs => a == b && hasPre as bs

/-- Python's `in` on strings: does `hay` contain `needle` as a contiguous run? -/
def containsSub (needle : List Char) : List Char → Bool
  | [] => needle.isEmpty
  | c :: rest => hasPre needle (c :: rest) || containsSub needle rest

/-- Whitespace characters removed by Python's `str.strip()`. -/
def isSpaceCh (c : Char) : Bool :=
  c == ' ' || c == '\t' || c == '\n' || c == '\r' || c == '\x0b' || c == '\x0c'

/-- Python's `str.strip()`: drop leading and trailing whitespace. -/
def pyStrip (s : List Char) : List Char :=
  ((s.dropWhile isSpaceCh).reverse.dropWhile isSpaceCh).reverse

/-- The literal `"Bearer "` compared against header values in `server.py`. -/
def bearerLit : List Char := ['B', 'e', 'a', 'r', 'e', 'r', ' ']

/-- Python's `s.replace("Bearer ", "")` as written in
`BearerTokenMiddleware.dispatch`: removes every non-overlapping
occurrence of `"Bearer "`, scanning left to right. -/
def stripBearerAll : List Char → List Char
  | 'B' :: 'e' :: 'a' :: 'r' :: 'e' :: 'r' :: ' ' :: rest => stripBearerAll rest
  | c :: rest => c :: stripBearerAll rest
  | [] => []

/-- Truthiness of an optional string: Python treats `None` and `""` as falsy. -/
def truthyOpt : Option (List Char) → Bool
  | some s => !s.isEmpty
  | none => false

/-- The module-level mutable cache of `MCPServer/__init__.py`:
`_cached_token` (initially `None`) and `_token_expiry` (initially `0`). -/
structure CacheState where
  cachedToken : Option (List Char)
  tokenExpiry : Int
  deriving DecidableEq, Repr

/-- JSON body of a 2xx response from the upstream token endpoint:
`access_token` may be absent (then `data["access_token"]` raises
`KeyError`), `expires_in` may be absent (then `data.get` defaults it). -/
structure TokenBody where
  accessToken : Option (List Char)
  expiresIn : Option Int
  deriving DecidableEq, Repr

/-- Outcome of the outbound `requests.post` to the token endpoint:
`failure` covers non-2xx status (`raise_for_status`), network errors and
timeouts; `success` carries the parsed JSON body. -/
inductive Upstream where
  | failure : Upstream
  | success : TokenBody → Upstream
  deriving DecidableEq, Repr

/-- Observable outcome of one `get_spotify_token()` call in
`MCPServer/__init__.py`: the returned value or a propagated exception,
the cache state after the call, and whether an outbound HTTP request
was issued. -/
structure CallOutcome where
  result : Except Unit (List Char)
  state : CacheState
  madeRequest : Bool
  deriving Repr

/-- Fast-path guard `if _cached_token and now < _token_expiry` of
`get_spotify_token` in `MCPServer/__init__.py`, with Python truthiness
of `_cached_token`. -/
def fastPathB (st : CacheState) (now : Int) : Bool :=
  truthyOpt st.cachedToken && decide (now < st.tokenExpiry)

/-- One call of `get_spotify_token()` from `MCPServer/__init__.py`,
lines 26-48, given the current time and the outcome the upstream
endpoint would produce if consulted.  On the fast path the cached value
is returned with no request.  Otherwise a request is issued; on failure
or on a body missing `access_token` the exception propagates (`raise`)
with the cache unchanged; on success the cache is overwritten with the
new token and `now + expires_in - 30` (default 3600) and the new token
is returned. -/
def getSpotifyToken (st : CacheState) (now : Int) (u : Upstream) : CallOutcome :=
  if fastPathB st now then
    ⟨.ok (st.cachedToken.getD []), st, false⟩
  else
    match u with
    | .failure => ⟨.error (), st, true⟩
    | .success body =>
      match body.accessToken with
      | none => ⟨.error (), st, true⟩
      | some tok => ⟨.ok tok, ⟨some tok, now + body.expiresIn.getD 3600 - 30⟩, true⟩

/-- The uncached `get_spotify_token()` of `server.py`, lines 82-95:
returns `resp.json().get("access_token")` on success and `None` on any
exception. -/
def serverGetToken : Upstream → Option (List Char)
  | .failure => none
  | .success body => body.accessToken

example : getSpotifyToken ⟨none, 0⟩ 100 (.success ⟨some (strL "t"), some 30⟩)
    = ⟨.ok (strL "t"), ⟨some (strL "t"), 100⟩, true⟩ := rfl

example : getSpotifyToken ⟨some (strL "abc"), 50⟩ 10 .failure
    = ⟨.ok (strL "abc"), ⟨some (strL "abc"), 50⟩, false⟩ := rfl

/-- Python's `a or b` on two optional header values, as in
`request.headers.get("authorization") or request.headers.get("api-key")`:
the first operand is kept when truthy (present and non-empty), otherwise
the second operand is the result. -/
def pyOr (a b : Option (List Char)) : Option (List Char) :=
  if truthyOpt a then a else b

/-- The per-value credential check of `BearerTokenMiddleware.dispatch`,
`server.py` lines 51-71, applied to a selected header value: deny when
falsy (`if not auth_header`), deny when the value does not start with
`"Bearer "`, then compare `auth_header.replace("Bearer ", "").strip()`
against `LOCAL_TOKEN`. -/
def checkValue (secret h : List Char) : Bool :=
  if h.isEmpty then false
  else if hasPre bearerLit h then pyStrip (stripBearerAll h) == secret
  else false

/-- The authorization decision of `BearerTokenMiddleware.dispatch` as a
function of the configured secret and the two credential headers:
select `authorization or api-key` (Python truthiness), deny on a missing
selection, otherwise apply `checkValue`. -/
def authorize (secret : List Char) (auth apiKey : Option (List Char)) : Bool :=
  match pyOr auth apiKey with
  | none => false
  | some h => checkValue secret h

/-- Result of one `BearerTokenMiddleware.dispatch` call: `forwarded`
means `call_next` was invoked (the inner application and hence any tool
handler runs); `unauthorized` means a 401 `JSONResponse` was returned
and `call_next` was never invoked. -/
inductive DispatchResult where
  | forwarded : DispatchResult
  | unauthorized : DispatchResult
  deriving DecidableEq, Repr

/-- `BearerTokenMiddleware.dispatch`, `server.py` lines 39-76, as a
function of the request path and the two credential headers: the root
path `"/"` skips authentication; a path containing `"/mcp"` is gated by
`authorize`; every other path is forwarded unchecked. -/
def dispatch (secret path : List Char) (auth apiKey : Option (List Char)) :
    DispatchResult :=
  if path = strL "/" then .forwarded
  else if containsSub (strL "/mcp") path then
    if authorize secret auth apiKey then .forwarded else .unauthorized
  else .forwarded

example : authorize (strL "XYZ") (some (strL "Bearer XYZ")) none = true := by decide
example : authorize (strL "XYZ") (some (strL "BearerXYZ")) none = false := by decide
example : authorize (strL "XYZ") (some (strL "Bearer WRONG")) none = false := by decide
example : authorize (strL "XYZ") none none = false := by decide
example : dispatch (strL "XYZ") (strL "/mcp") none none = .unauthorized := by decide
example : dispatch (strL "XYZ") (strL "/") none none = .forwarded := by decide

/-- Module initialization of `server.py`, lines 14-22: raises
`EnvironmentError` when the Spotify client id or secret is falsy, then
when `LOCAL_TOKEN` is falsy; otherwise the module loads. -/
def serverInit (cid sec localTok : Option (List Char)) : Except (List Char) Unit :=
  if !truthyOpt cid || !truthyOpt sec then
    .error (strL "Missing Spotify credentials (CLIENT ID + SECRET)")
  else if !truthyOpt localTok then
    .error (strL "Missing LOCAL_TOKEN env variable")
  else
    .ok ()

/-- Module initialization of `app.py`, lines 13-16: raises
`EnvironmentError` when the Spotify client id or secret is falsy. -/
def appInit (cid sec : Option (List Char)) : Except (List Char) Unit :=
  if !truthyOpt cid || !truthyOpt sec then
    .error (strL "Missing SPOTIFY_CLIENT_ID/SECRET.")
  else
    .ok ()

/-- Module initialization of `MCPServer/__init__.py`, lines 13-17: a
missing Spotify client id or secret only emits `logging.warning` (the
second component); initialization always completes without raising. -/
def mcpServerInit (cid sec : Option (List Char)) : Except (List Char) Unit × Bool :=
  (.ok (), !truthyOpt cid || !truthyOpt sec)

/-- One audio-feature object as consumed by `get_artist_profile.avg`:
each of the four keys may be absent (`f.get(key)` then yields `None`).
Float values are modelled as exact rationals. -/
structure FeatureRec where
  danceability : Option ℚ
  energy : Option ℚ
  valence : Option ℚ
  tempo : Option ℚ
  deriving DecidableEq, Repr

/-- Python truthiness of `f.get(key)` for a numeric field: absent keys
and the value `0` (or `0.0`) are falsy. -/
def truthyVal : Option ℚ → Bool
  | some v => v != 0
  | none => false

/-- Round-half-to-even of a rational to an integer, modelling Python's
`round` on the exact value (IEEE-754 representation error abstracted
away). -/
def roundHalfEven (q : ℚ) : Int :=
  let f := ⌊q⌋
  if q - f < 1 / 2 then f
  else if q - f > 1 / 2 then f + 1
  else if f % 2 = 0 then f else f + 1

/-- Python's `round(x, 3)` on the exact rational value. -/
def round3 (q : ℚ) : ℚ := (roundHalfEven (q * 1000) : ℚ) / 1000

/-- The `avg` helper of `get_artist_profile`, `MCPServer/__init__.py`
lines 190-192: `vals = [f[key] for f in features if f.get(key)]`, then
`round(sum(vals) / len(vals), 3) if vals else 0.0`. -/
def avgOf (proj : FeatureRec → Option ℚ) (features : List FeatureRec) : ℚ :=
  let vals := (features.filter (fun f => truthyVal (proj f))).map
    (fun f => (proj f).getD 0)
  if vals.isEmpty then 0 else round3 (vals.sum / vals.length)

/-- The four-average summary computed at `MCPServer/__init__.py`
lines 196-201. -/
def profileSummary (features : List FeatureRec) : ℚ × ℚ × ℚ × ℚ :=
  (avgOf FeatureRec.danceability features, avgOf FeatureRec.energy features,
   avgOf FeatureRec.valence features, avgOf FeatureRec.tempo features)

/-- Modelled from the claim's words, for comparison with `avgOf`: the
mean, rounded to 3 decimal places, over exactly those entries whose
value for the key is present and non-zero, and `0.0` when no such entry
exists. -/
def specAvg (proj : FeatureRec → Option ℚ) (features : List FeatureRec) : ℚ :=
  let incl := (features.filterMap proj).filter (fun v => v != 0)
  if incl.length = 0 then 0 else round3 (incl.sum / incl.length)

/-- Modelled from the claim's words for C2: allow exactly when the value
starts with `"Bearer "` and stripping only that leading occurrence, then
trimming whitespace, equals the secret. -/
def claimAllowC2 (secret h : List Char) : Bool :=
  hasPre bearerLit h && (pyStrip (h.drop bearerLit.length) == secret)

/-- Modelled from the claim's words for C7: the conventional
authorization header is preferred over `api-key` whenever it is present,
regardless of its value. -/
def specSelectAuth (auth apiKey : Option (List Char)) : Option (List Char) :=
  match auth with
  | some a => some a
  | none => apiKey


/-- Helper: `checkValue` as a conjunction of the prefix test and the
replace-all-then-strip comparison. -/
theorem checkValue_eq (secret h : List Char) :
    checkValue secret h
      = (hasPre bearerLit h && (pyStrip (stripBearerAll h) == secret)) := by
  cases h with
  | nil => rfl
  | cons a as =>
    cases hb : hasPre bearerLit (a :: as) <;>
      simp [checkValue, hb, List.isEmpty]

/-- C1 counterexample: from the empty cache at time 100, a successful
refresh reporting `expires_in = 30` installs `expires_at = 100 + 30 - 30
= 100` and still returns the fresh token, so a value whose recorded
expiry is ≤ the call timestamp IS returned by the installing call,
contrary to the claim. -/
theorem c1_short_expiry_counterexample :
    (getSpotifyToken ⟨none, 0⟩ 100 (.success ⟨some (strL "t"), some 30⟩)).result
        = .ok (strL "t")
    ∧ (getSpotifyToken ⟨none, 0⟩ 100
        (.success ⟨some (strL "t"), some 30⟩)).state.tokenExpiry ≤ 100 :=
  ⟨rfl, by decide⟩

/-- C1 (amended): whenever a `get_spotify_token()` call completes with a
successful upstream body whose reported expiry-seconds exceeds 30 (or is
absent, defaulting to 3600), the returned value is the one recorded in
the cache afterwards and its recorded `expires_at` is strictly greater
than the call's current time — on the fast path because the guard
requires `now < _token_expiry`, and on refresh because `now + E - 30 >
now` for `E > 30`.  The installing call with reported expiry-seconds
≤ 30 is the sole exception (see the counterexample). -/
theorem c1_cache_validity_amended (st : CacheState) (now : Int) (T : List Char)
    (E : Int) (hE : 30 < E) :
    (∃ v, (getSpotifyToken st now (.success ⟨some T, some E⟩)).result = .ok v ∧
      (getSpotifyToken st now (.success ⟨some T, some E⟩)).state.cachedToken = some v ∧
      now < (getSpotifyToken st now (.success ⟨some T, some E⟩)).state.tokenExpiry)
    ∧ (∃ v, (getSpotifyToken st now (.success ⟨some T, none⟩)).result = .ok v ∧
      (getSpotifyToken st now (.success ⟨some T, none⟩)).state.cachedToken = some v ∧
      now < (getSpotifyToken st now (.success ⟨some T, none⟩)).state.tokenExpiry) := by
  by_cases h : fastPathB st now
  · obtain ⟨s, hs⟩ : ∃ s, st.cachedToken = some s := by
      cases hc : st.cachedToken with
      | none => simp [fastPathB, truthyOpt, hc] at h
      | some s => exact ⟨s, rfl⟩
    have hlt : now < st.tokenExpiry := by
      simp only [fastPathB, Bool.and_eq_true, decide_eq_true_eq] at h
      exact h.2
    constructor <;> exact ⟨s, by simp [getSpotifyToken, h, hs], by simp [getSpotifyToken, h, hs], by simpa [getSpotifyToken, h]⟩
  · rw [Bool.not_eq_true] at h
    constructor
    · exact ⟨T, by simp [getSpotifyToken, h], by simp [getSpotifyToken, h], by simp [getSpotifyToken, h]; omega⟩
    · exact ⟨T, by simp [getSpotifyToken, h], by simp [getSpotifyToken, h], by simp [getSpotifyToken, h]; omega⟩

/-- C1 amended witness: concrete instantiation at the empty cache, time
0, token "a", reported expiry 3600. -/
theorem c1_cache_validity_amended_witness :
    (30 : Int) < 3600
    ∧ ((∃ v, (getSpotifyToken ⟨none, 0⟩ 0
          (.success ⟨some (strL "a"), some 3600⟩)).result = .ok v ∧
        (getSpotifyToken ⟨none, 0⟩ 0
          (.success ⟨some (strL "a"), some 3600⟩)).state.cachedToken = some v ∧
        (0 : Int) < (getSpotifyToken ⟨none, 0⟩ 0
          (.success ⟨some (strL "a"), some 3600⟩)).state.tokenExpiry)
      ∧ (∃ v, (getSpotifyToken ⟨none, 0⟩ 0
          (.success ⟨some (strL "a"), none⟩)).result = .ok v ∧
        (getSpotifyToken ⟨none, 0⟩ 0
          (.success ⟨some (strL "a"), none⟩)).state.cachedToken = some v ∧
        (0 : Int) < (getSpotifyToken ⟨none, 0⟩ 0
          (.success ⟨some (strL "a"), none⟩)).state.tokenExpiry)) :=
  ⟨by decide, c1_cache_validity_amended ⟨none, 0⟩ 0 (strL "a") 3600 (by decide)⟩

/-- C3: fail-closed on upstream error.  For every cache state not on the
fast path, an upstream failure (non-2xx, network error, timeout) or a
2xx body missing the access-token field makes `get_spotify_token()` of
`MCPServer/__init__.py` propagate the exception with the cache slot
unchanged — no stale cached value and no empty token is returned.  The
uncached `get_spotify_token()` of `server.py` likewise yields its error
signal (`None`) on failure and on a body missing the field. -/
theorem c3_fail_closed (st : CacheState) (now : Int)
    (h : fastPathB st now = false) :
    getSpotifyToken st now .failure = ⟨.error (), st, true⟩
    ∧ (∀ e, getSpotifyToken st now (.success ⟨none, e⟩) = ⟨.error (), st, true⟩)
    ∧ serverGetToken .failure = none
    ∧ (∀ e, serverGetToken (.success ⟨none, e⟩) = none) :=
  ⟨by simp [getSpotifyToken, h], fun e => by simp [getSpotifyToken, h],
   rfl, fun e => rfl⟩

/-- C3 witness: the initial empty cache at time 0 is not on the fast
path, and an upstream failure there propagates the error. -/
theorem c3_fail_closed_witness :
    fastPathB ⟨none, 0⟩ 0 = false
    ∧ (getSpotifyToken ⟨none, 0⟩ 0 .failure = ⟨.error (), ⟨none, 0⟩, true⟩
      ∧ (∀ e, getSpotifyToken ⟨none, 0⟩ 0 (.success ⟨none, e⟩)
          = ⟨.error (), ⟨none, 0⟩, true⟩)
      ∧ serverGetToken .failure = none
      ∧ (∀ e, serverGetToken (.success ⟨none, e⟩) = none)) :=
  ⟨rfl, c3_fail_closed ⟨none, 0⟩ 0 rfl⟩

/-- C5 counterexample: the cache state holding the empty-string token
with expiry 100 at call time 0 has a cached token (`isSome`) and the
current time strictly below the recorded expiry, yet the call issues an
outbound request (Python truthiness of `_cached_token` skips the fast
path for `""`) and does not return the cached value. -/
theorem c5_empty_token_counterexample :
    (⟨some [], 100⟩ : CacheState).cachedToken.isSome = true
    ∧ (0 : Int) < (⟨some [], 100⟩ : CacheState).tokenExpiry
    ∧ (getSpotifyToken ⟨some [], 100⟩ 0 .failure).madeRequest = true
    ∧ (getSpotifyToken ⟨some [], 100⟩ 0 .failure).result = .error () :=
  ⟨rfl, by decide, rfl, rfl⟩

/-- C5 (amended): for every cache state holding a NON-EMPTY cached token
with the current time strictly below its recorded expiry, a
`get_spotify_token()` call returns exactly the cached value, leaves the
cache unchanged and issues zero outbound requests, whatever the upstream
endpoint would have answered; hence two such calls return the identical
value and only the first may perform I/O.  (The empty-string cached
token is falsy in Python and skips the fast path; see the
counterexample.) -/
theorem c5_fast_path_amended (st : CacheState) (now : Int) (u : Upstream)
    (v : List Char) (hv : st.cachedToken = some v) (hne : v ≠ [])
    (hlt : now < st.tokenExpiry) :
    getSpotifyToken st now u = ⟨.ok v, st, false⟩ := by
  cases v with
  | nil => exact absurd rfl hne
  | cons a as =>
    have hfp : fastPathB st now = true := by
      simp [fastPathB, truthyOpt, hv, hlt]
    simp [getSpotifyToken, hfp, hv]

/-- C5 amended witness: concrete cache holding token "abc" with expiry
10 at time 0; the call returns "abc" with no request even though the
upstream would fail. -/
theorem c5_fast_path_amended_witness :
    (⟨some (strL "abc"), 10⟩ : CacheState).cachedToken = some (strL "abc")
    ∧ strL "abc" ≠ []
    ∧ (0 : Int) < 10
    ∧ getSpotifyToken ⟨some (strL "abc"), 10⟩ 0 .failure
        = ⟨.ok (strL "abc"), ⟨some (strL "abc"), 10⟩, false⟩ :=
  ⟨rfl, by decide, by decide,
   c5_fast_path_amended ⟨some (strL "abc"), 10⟩ 0 .failure (strL "abc")
     rfl (by decide) (by decide)⟩

/-- C6: refresh postcondition.  Off the fast path, a successful refresh
at time `now` reporting token `T` and expiry-seconds `E` stores `T`,
sets the cached expiry to `now + E - 30` and returns `T`; when the
`expires_in` field is absent it defaults to 3600. -/
theorem c6_refresh_postcondition (st : CacheState) (now : Int) (T : List Char)
    (E : Int) (h : fastPathB st now = false) :
    getSpotifyToken st now (.success ⟨some T, some E⟩)
        = ⟨.ok T, ⟨some T, now + E - 30⟩, true⟩
    ∧ getSpotifyToken st now (.success ⟨some T, none⟩)
        = ⟨.ok T, ⟨some T, now + 3600 - 30⟩, true⟩ :=
  ⟨by simp [getSpotifyToken, h], by simp [getSpotifyToken, h]⟩

/-- C6 witness: refresh from the initial empty cache at time 1000 with
token "abc123" and reported expiry 3600 installs expiry 4570. -/
theorem c6_refresh_postcondition_witness :
    fastPathB ⟨none, 0⟩ 1000 = false
    ∧ (getSpotifyToken ⟨none, 0⟩ 1000 (.success ⟨some (strL "abc123"), some 3600⟩)
        = ⟨.ok (strL "abc123"), ⟨some (strL "abc123"), 1000 + 3600 - 30⟩, true⟩
      ∧ getSpotifyToken ⟨none, 0⟩ 1000 (.success ⟨some (strL "abc123"), none⟩)
        = ⟨.ok (strL "abc123"), ⟨some (strL "abc123"), 1000 + 3600 - 30⟩, true⟩) :=
  ⟨rfl, c6_refresh_postcondition ⟨none, 0⟩ 1000 (strL "abc123") 3600 rfl⟩

/-- C2 counterexample: with secret "X", the header value
"Bearer Bearer X" is ALLOWED by the code (Python `replace` removes every
occurrence of "Bearer ", leaving "X"), while the claim's rule — strip
only the leading prefix, then trim — yields "Bearer X" and demands
denial.  The claim's "the stripping removes only the leading prefix" is
false of the code. -/
theorem c2_replace_all_counterexample :
    authorize (strL "X") (some (strL "Bearer Bearer X")) none = true
    ∧ claimAllowC2 (strL "X") (strL "Bearer Bearer X") = false :=
  ⟨by decide, by decide⟩

/-- C2 (amended): for every secret and header pair, the request is
allowed if and only if the selected credential value begins with the
literal "Bearer " (exact case, trailing space) and the result of
removing EVERY occurrence of "Bearer " and trimming surrounding
whitespace is byte-for-byte equal to the configured secret; any missing
header is denied.  (The code's `replace("Bearer ", "")` removes all
occurrences, not only the leading one.) -/
theorem c2_authorization_amended (secret : List Char)
    (auth apiKey : Option (List Char)) :
    authorize secret auth apiKey = true ↔
      ∃ h, pyOr auth apiKey = some h ∧ hasPre bearerLit h = true ∧
        pyStrip (stripBearerAll h) = secret := by
  cases hp : pyOr auth apiKey with
  | none => simp [authorize, hp]
  | some h =>
    simp [authorize, hp, checkValue_eq, Bool.and_eq_true, beq_iff_eq]

/-- C7 counterexample: with secret "X", an Authorization header that is
PRESENT but empty together with a valid api-key header is allowed by
the code — Python's `or` falls through on the falsy empty string — yet
under the claim's precedence (Authorization preferred whenever both are
present) the selected value would be the empty string, which fails the
credential check. -/
theorem c7_precedence_counterexample :
    authorize (strL "X") (some []) (some (strL "Bearer X")) = true
    ∧ specSelectAuth (some ([] : List Char)) (some (strL "Bearer X")) = some []
    ∧ checkValue (strL "X") [] = false :=
  ⟨by decide, rfl, rfl⟩

/-- C7 (amended): the credential is selected deterministically by
Python's `or`: an Authorization header that is present with a NON-EMPTY
value takes precedence over api-key; an empty Authorization value falls
back to the api-key header; with no Authorization header the api-key
value is checked, so a valid `Bearer <secret>` api-key alone is allowed
(concrete instance included); with neither header the request is
denied. -/
theorem c7_header_fallback_amended (S a : List Char)
    (apiKey : Option (List Char)) :
    (a ≠ [] → authorize S (some a) apiKey = checkValue S a)
    ∧ authorize S (some []) apiKey = authorize S none apiKey
    ∧ (∀ h, authorize S none (some h) = checkValue S h)
    ∧ authorize S none none = false
    ∧ authorize (strL "X") none (some (strL "Bearer X")) = true := by
  refine ⟨?_, ?_, ?_, rfl, by decide⟩
  · intro hne
    cases a with
    | nil => exact absurd rfl hne
    | cons c cs => simp [authorize, pyOr, truthyOpt]
  · simp [authorize, pyOr, truthyOpt]
  · intro h
    simp [authorize, pyOr, truthyOpt]

/-- C7 amended witness: concrete instantiation with secret "X", a
non-empty Authorization value and no api-key header. -/
theorem c7_header_fallback_amended_witness :
    strL "Bearer X" ≠ []
    ∧ authorize (strL "X") (some (strL "Bearer X")) none
        = checkValue (strL "X") (strL "Bearer X") :=
  ⟨by decide,
   (c7_header_fallback_amended (strL "X") (strL "Bearer X") none).1 (by decide)⟩

/-- C4 counterexample: module initialization of `MCPServer/__init__.py`
with BOTH Spotify credentials absent completes without raising (it only
emits a warning), so this variant does not fail fatally at startup and
absence is deferred to per-request failure, contrary to the claim. -/
theorem c4_mcpserver_no_raise_counterexample :
    mcpServerInit none none = (.ok (), true) := rfl

/-- C4 (amended): `server.py` raises at module initialization exactly
when the client id, client secret or LOCAL_TOKEN is falsy, and `app.py`
raises exactly when the client id or client secret is falsy; the Azure
Functions variant `MCPServer/__init__.py` never raises at
initialization — it only logs a warning when a Spotify credential is
falsy, deferring the failure to request time. -/
theorem c4_startup_config_amended (cid sec tok : Option (List Char)) :
    (serverInit cid sec tok = .ok () ↔
      truthyOpt cid = true ∧ truthyOpt sec = true ∧ truthyOpt tok = true)
    ∧ (appInit cid sec = .ok () ↔ truthyOpt cid = true ∧ truthyOpt sec = true)
    ∧ (mcpServerInit cid sec).1 = .ok ()
    ∧ ((mcpServerInit cid sec).2 = true ↔
        ¬(truthyOpt cid = true ∧ truthyOpt sec = true)) := by
  cases hc : truthyOpt cid <;> cases hs : truthyOpt sec <;>
    cases ht : truthyOpt tok <;>
      simp [serverInit, appInit, mcpServerInit, hc, hs, ht]

/-- C8: deny short-circuits all downstream work.  For every request
whose path contains "/mcp" and whose headers the authorizer denies,
`dispatch` returns the 401 rejection and never invokes `call_next`, so
no tool handler runs and `get_spotify_token()` is never called on the
denied path. -/
theorem c8_deny_short_circuits (secret path : List Char)
    (auth apiKey : Option (List Char))
    (hm : containsSub (strL "/mcp") path = true)
    (hd : authorize secret auth apiKey = false) :
    dispatch secret path auth apiKey = .unauthorized := by
  have hroot : path ≠ strL "/" := by
    intro h
    rw [h] at hm
    exact absurd hm (by decide)
  simp [dispatch, hroot, hm, hd]

/-- C8 witness: path "/mcp" with no credential headers is rejected. -/
theorem c8_deny_short_circuits_witness :
    containsSub (strL "/mcp") (strL "/mcp") = true
    ∧ authorize (strL "X") none none = false
    ∧ dispatch (strL "X") (strL "/mcp") none none = .unauthorized :=
  ⟨by decide, rfl,
   c8_deny_short_circuits (strL "X") (strL "/mcp") none none (by decide) rfl⟩

/-- C9: authentication scope is path-based.  For every request whose
path does not contain "/mcp" (including the root "/"), `dispatch`
forwards to the inner application whatever the credential headers hold;
the bearer-token check is reached only for paths containing "/mcp". -/
theorem c9_path_scope (secret path : List Char)
    (auth apiKey : Option (List Char))
    (hm : containsSub (strL "/mcp") path = false) :
    dispatch secret path auth apiKey = .forwarded := by
  by_cases hroot : path = strL "/"
  · simp [dispatch, hroot]
  · simp [dispatch, hroot, hm]

/-- C9 witness: path "/healthz" with a garbage Authorization header is
forwarded without any credential check. -/
theorem c9_path_scope_witness :
    containsSub (strL "/mcp") (strL "/healthz") = false
    ∧ dispatch (strL "X") (strL "/healthz") (some (strL "garbage")) none
        = .forwarded :=
  ⟨by decide,
   c9_path_scope (strL "X") (strL "/healthz") (some (strL "garbage")) none
     (by decide)⟩

/-- Helper: the comprehension `[f[key] for f in features if f.get(key)]`
collects exactly the present, non-zero values of the key, in order. -/
theorem avgOf_vals_eq (proj : FeatureRec → Option ℚ)
    (features : List FeatureRec) :
    (features.filter (fun f => truthyVal (proj f))).map
        (fun f => (proj f).getD 0)
      = (features.filterMap proj).filter (fun v => v != 0) := by
  induction features with
  | nil => rfl
  | cons f fs ih =>
    cases hp : proj f with
    | none =>
      simpa [List.filter_cons, List.filterMap_cons, hp, truthyVal] using ih
    | some v =>
      by_cases hv : v = 0
      · simpa [List.filter_cons, List.filterMap_cons, hp, truthyVal, hv] using ih
      · simpa [List.filter_cons, List.filterMap_cons, hp, truthyVal, hv] using ih

/-- Helper: the per-key average of `get_artist_profile.avg` equals the
claim's description of it. -/
theorem avgOf_eq_specAvg (proj : FeatureRec → Option ℚ)
    (features : List FeatureRec) :
    avgOf proj features = specAvg proj features := by
  unfold avgOf specAvg
  rw [avgOf_vals_eq]
  cases h : (features.filterMap proj).filter (fun v => v != 0) with
  | nil => simp
  | cons x xs => simp

/-- C10: each reported average of `get_artist_profile` equals the mean,
rounded to 3 decimal places, over exactly those audio-feature entries
whose value for the key is truthy — entries with value 0 or an absent
key are excluded from both the sum and the count — and is 0.0 when no
such entry exists.  (Float arithmetic is modelled as exact rational
arithmetic.) -/
theorem c10_profile_averages (features : List FeatureRec) :
    profileSummary features
      = (specAvg FeatureRec.danceability features,
         specAvg FeatureRec.energy features,
         specAvg FeatureRec.valence features,
         specAvg FeatureRec.tempo features) := by
  unfold profileSummary
  rw [avgOf_eq_specAvg, avgOf_eq_specAvg, avgOf_eq_specAvg, avgOf_eq_specAvg]
